import Mathlib

/-!
Shallow embedding of `Cinder/Ocata/huawei_utils.py` (Huawei storage driver
helper functions) and proofs about its name-encoding scheme, resolution
fallback chains, metadata extraction, feature check and poll helper.

Modelling conventions:
* Python dynamic values that flow through these helpers (results of
  `json.loads`, client lookup results, dict values) are modelled by `JValue`;
  Python truthiness is `jTruthy`.  JSON arrays never occur in
  `provider_location` for this driver and are omitted from the grammar.
* Python dicts are modelled as association lists with unique keys
  (first occurrence wins), `dict.get` returning `Option`/`JValue.null`.
* `hashlib.md5(...).hexdigest()` is modelled by a full executable MD5
  implementation (`md5_hexdigest`) over the UTF-8 bytes of the input.
* Python's builtin `hash` on strings is process-seed randomized, so it is
  modelled as an explicit function parameter `pyhash : String → Int`
  threaded into the functions that use the old encoding scheme.
-/

/-- Dynamic (JSON-like) Python value as used by these helpers. -/
inductive JValue where
  | null
  | bool (b : Bool)
  | num (n : Int)
  | str (s : String)
  | obj (fields : List (String × JValue))
deriving Repr

/-- Python truthiness of a `JValue` (`None`, `False`, `0`, `""` and the empty
dict are falsy). -/
def jTruthy : JValue → Bool
  | .null => false
  | .bool b => b
  | .num n => n != 0
  | .str s => s != ""
  | .obj fields => !fields.isEmpty

/-- Python `dict.get` on an association-list dict: `some` value or `none`. -/
def dictGet {α : Type} (m : List (String × α)) (k : String) : Option α :=
  (m.find? (fun p => p.1 == k)).map Prod.snd

/-- Python `dict.get` on a `JValue`-valued dict, with `None` (`JValue.null`)
as the default for a missing key. -/
def dictGetJ (m : List (String × JValue)) (k : String) : JValue :=
  ((m.find? (fun p => p.1 == k)).map Prod.snd).getD JValue.null

/-- Python `six.text_type` (i.e. `str`) on the scalar values that can reach it
here: `None`, booleans, integers and strings.  The `obj` case is unreachable
in this file (dict-shaped values are returned before `text_type` is applied);
it is given the empty rendering. -/
def six_text_type : JValue → String
  | .null => "None"
  | .bool b => if b then "True" else "False"
  | .num n => toString n
  | .str s => s
  | .obj _ => ""

/-! ## UTF-8 bytes and MD5 (model of `hashlib.md5(...).hexdigest()`) -/

/-- UTF-8 encoding of a single character, as byte values. -/
def utf8Bytes (c : Char) : List Nat :=
  let n := c.toNat
  if n < 128 then [n]
  else if n < 2048 then [192 + n / 64, 128 + n % 64]
  else if n < 65536 then [224 + n / 4096, 128 + n / 64 % 64, 128 + n % 64]
  else [240 + n / 262144, 128 + n / 4096 % 64, 128 + n / 64 % 64, 128 + n % 64]

/-- UTF-8 bytes of a string (Python `s.encode('utf-8')`). -/
def strBytes (s : String) : List Nat :=
  s.data.flatMap utf8Bytes

/-- Truncate to a 32-bit word. -/
def w32 (x : Nat) : Nat := x % 4294967296

/-- Rotate a 32-bit word left by `n` bits (`0 ≤ n ≤ 32`, argument `< 2^32`). -/
def rotl32 (x n : Nat) : Nat :=
  (x * 2 ^ n + x / 2 ^ (32 - n)) % 4294967296

/-- The `n` little-endian bytes of `x`. -/
def leBytes (n x : Nat) : List Nat :=
  (List.range n).map (fun i => x / 256 ^ i % 256)

/-- MD5 per-round left-rotation amounts. -/
def MD5_S : List Nat :=
  [7, 12, 17, 22, 7, 12, 17, 22, 7, 12, 17, 22, 7, 12, 17, 22,
   5, 9, 14, 20, 5, 9, 14, 20, 5, 9, 14, 20, 5, 9, 14, 20,
   4, 11, 16, 23, 4, 11, 16, 23, 4, 11, 16, 23, 4, 11, 16, 23,
   6, 10, 15, 21, 6, 10, 15, 21, 6, 10, 15, 21, 6, 10, 15, 21]

/-- MD5 round constants `⌊2³² · |sin (i+1)|⌋`. -/
def MD5_K : List Nat :=
  [0xd76aa478, 0xe8c7b756, 0x242070db, 0xc1bdceee,
   0xf57c0faf, 0x4787c62a, 0xa8304613, 0xfd469501,
   0x698098d8, 0x8b44f7af, 0xffff5bb1, 0x895cd7be,
   0x6b901122, 0xfd987193, 0xa679438e, 0x49b40821,
   0xf61e2562, 0xc040b340, 0x265e5a51, 0xe9b6c7aa,
   0xd62f105d, 0x02441453, 0xd8a1e681, 0xe7d3fbc8,
   0x21e1cde6, 0xc33707d6, 0xf4d50d87, 0x455a14ed,
   0xa9e3e905, 0xfcefa3f8, 0x676f02d9, 0x8d2a4c8a,
   0xfffa3942, 0x8771f681, 0x6d9d6122, 0xfde5380c,
   0xa4beea44, 0x4bdecfa9, 0xf6bb4b60, 0xbebfbc70,
   0x289b7ec6, 0xeaa127fa, 0xd4ef3085, 0x04881d05,
   0xd9d4d039, 0xe6db99e5, 0x1fa27cf8, 0xc4ac5665,
   0xf4292244, 0x432aff97, 0xab9423a7, 0xfc93a039,
   0x655b59c3, 0x8f0ccc92, 0xffeff47d, 0x85845dd1,
   0x6fa87e4f, 0xfe2ce6e0, 0xa3014314, 0x4e0811a1,
   0xf7537e82, 0xbd3af235, 0x2ad7d2bb, 0xeb86d391]

/-- MD5 message padding: `0x80`, zeros to 56 mod 64, then the 64-bit
little-endian bit length. -/
def md5pad (msg : List Nat) : List Nat :=
  msg ++ [128] ++
    List.replicate ((56 + 64 - (msg.length + 1) % 64) % 64) 0 ++
    leBytes 8 (msg.length * 8 % 2 ^ 64)

/-- Word `g` (little-endian 32-bit) of a 64-byte block. -/
def blockWord (blk : List Nat) (g : Nat) : Nat :=
  ((blk.drop (4 * g)).take 4).foldr (fun b a => b + 256 * a) 0

/-- One MD5 round (round index `i` from 0 to 63) on state `(a, b, c, d)`. -/
def md5round (blk : List Nat) (st : Nat × Nat × Nat × Nat) (i : Nat) :
    Nat × Nat × Nat × Nat :=
  let a := st.1
  let b := st.2.1
  let c := st.2.2.1
  let d := st.2.2.2
  let fg : Nat × Nat :=
    if i < 16 then ((b &&& c) ||| ((4294967295 ^^^ b) &&& d), i)
    else if i < 32 then ((d &&& b) ||| ((4294967295 ^^^ d) &&& c), (5 * i + 1) % 16)
    else if i < 48 then (b ^^^ c ^^^ d, (3 * i + 5) % 16)
    else (c ^^^ (b ||| (4294967295 ^^^ d)), (7 * i) % 16)
  let f := (fg.1 + a + MD5_K.getD i 0 + blockWord blk fg.2) % 4294967296
  (d, (b + rotl32 f (MD5_S.getD i 0)) % 4294967296, b, c)

/-- Process one 64-byte block: 64 rounds, then add the old state back in. -/
def md5block (st : Nat × Nat × Nat × Nat) (blk : List Nat) :
    Nat × Nat × Nat × Nat :=
  let r := (List.range 64).foldl (md5round blk) st
  ((st.1 + r.1) % 4294967296, (st.2.1 + r.2.1) % 4294967296,
   (st.2.2.1 + r.2.2.1) % 4294967296, (st.2.2.2 + r.2.2.2) % 4294967296)

/-- MD5 state after processing all 64-byte blocks of the padded message. -/
def md5words (msg : List Nat) : Nat × Nat × Nat × Nat :=
  let padded := md5pad msg
  let nblocks := padded.length / 64
  (List.range nblocks).foldl
    (fun st i => md5block st ((padded.drop (64 * i)).take 64))
    (0x67452301, 0xefcdab89, 0x98badcfe, 0x10325476)

/-- The 16 digest bytes of MD5 of a byte message. -/
def md5bytes (msg : List Nat) : List Nat :=
  let st := md5words msg
  leBytes 4 st.1 ++ leBytes 4 st.2.1 ++ leBytes 4 st.2.2.1 ++ leBytes 4 st.2.2.2

/-- Lowercase hex character for a value `< 16`. -/
def hexChar (n : Nat) : Char :=
  if n < 10 then Char.ofNat (48 + n) else Char.ofNat (87 + n)

/-- Two lowercase hex characters of a byte. -/
def byteHex (b : Nat) : List Char :=
  [hexChar (b / 16 % 16), hexChar (b % 16)]

/-- Model of Python `hashlib.md5(s.encode('utf-8')).hexdigest()`. -/
def md5_hexdigest (s : String) : String :=
  String.mk ((md5bytes (strBytes s)).flatMap byteHex)

/-! ## Configuration constants

Modelled from the spec: the driver's `constants` module is not part of the
sources at hand; the spec describes `MAX_NAME_LENGTH` (integer, array-imposed
name length ceiling), `AVAILABLE_FEATURE_STATUS` (set of status codes
signifying a licensed/enabled feature) and `SUPPORT_CLONE_PAIR_VERSION`
(minimum firmware version string for a feature gate).  The values below are
the driver's configured ones. -/

/-- Modelled from the spec: `constants.MAX_NAME_LENGTH`, the array-imposed
name length ceiling (the driver configures 31). -/
def MAX_NAME_LENGTH : Nat := 31

/-- Modelled from the spec: `constants.AVAILABLE_FEATURE_STATUS`, the status
codes under which a feature counts as available (the driver configures
`(1, 2)`). -/
def AVAILABLE_FEATURE_STATUS : List Int := [1, 2]

/-- Modelled from the spec: `constants.SUPPORT_CLONE_PAIR_VERSION`, the
minimum firmware version string for the clone-pair feature gate (the driver
configures `'V600R003C00'`). -/
def SUPPORT_CLONE_PAIR_VERSION : String := "V600R003C00"

/-! ## String helpers (Python string operations used by the source) -/

/-- Python `id.split('-')[0]`: the segment before the first `'-'` (the whole
string when there is no `'-'`). -/
def splitFirstDash (s : String) : String :=
  String.mk (s.data.takeWhile (fun c => c != '-'))

/-- The first `n` characters of a string (`s[:n]` for `n ≥ 0`). -/
def strTake (s : String) (n : Nat) : String :=
  String.mk (s.data.take n)

/-- Python slice `s[:k]` for an arbitrary (possibly negative) integer `k`. -/
def pySliceTo (s : String) (k : Int) : String :=
  if 0 ≤ k then strTake s k.toNat else strTake s (s.data.length - (-k).toNat)

/-- Python `s.startswith('-')`. -/
def startsWithDash (s : String) : Bool :=
  s.data.head? == some '-'

/-- Python string comparison `a < b` on character lists: lexicographic by
code point (a strict prefix is smaller). -/
def pyStrLtL : List Char → List Char → Bool
  | [], [] => false
  | [], _ :: _ => true
  | _ :: _, [] => false
  | a :: as, b :: bs =>
    if a.toNat < b.toNat then true
    else if b.toNat < a.toNat then false
    else pyStrLtL as bs

/-- Python `a < b` on strings. -/
def pyStrLt (a b : String) : Bool := pyStrLtL a.data b.data

/-- Python `a >= b` on strings. -/
def pyStrGe (a b : String) : Bool := !(pyStrLt a b)

/-! ## Name encoders (`encode_name`, `old_encode_name`,
`encode_host_name`, `old_encode_host_name`) -/

/-- Embedding of `encode_name(id)`: MD5-based new-scheme encoding.  The prefix is the
segment of `id` before the first `'-'` plus `'-'` itself; the postfix is the
Python slice `hexdigest[:MAX_NAME_LENGTH - len(prefix)]`. -/
def encode_name (id : String) : String :=
  let encoded_name := md5_hexdigest id
  let pfx := splitFirstDash id ++ "-"
  let sfx := pySliceTo encoded_name ((MAX_NAME_LENGTH : Int) - pfx.length)
  pfx ++ sfx

/-- Embedding of `old_encode_name(id)`: legacy encoding from Python's builtin `hash`
(modelled by the explicit parameter `pyhash`, since that hash is
process-seed randomized). -/
def old_encode_name (pyhash : String → Int) (id : String) : String :=
  let pre_name := splitFirstDash id
  let vol_encoded := toString (pyhash id)
  if startsWithDash vol_encoded then pre_name ++ vol_encoded
  else pre_name ++ "-" ++ vol_encoded

/-- Embedding of `encode_host_name(name)`: identity within the length bound, otherwise the
MD5 hexdigest truncated to `MAX_NAME_LENGTH`. -/
def encode_host_name (name : String) : String :=
  if name != "" && name.data.length > MAX_NAME_LENGTH then
    strTake (md5_hexdigest name) MAX_NAME_LENGTH
  else name

/-- Embedding of `old_encode_host_name(name)`: identity within the length bound, otherwise
the string form of Python's builtin `hash` (parameter `pyhash`). -/
def old_encode_host_name (pyhash : String → Int) (name : String) : String :=
  if name != "" && name.data.length > MAX_NAME_LENGTH then
    toString (pyhash name)
  else name

/-! ## Service objects and metadata extraction -/

/-- A volume object.  `provider_location` models the JSON text field: `none`
for an empty/absent field, `some v` for text that `json.loads` decodes to
`v` (malformed JSON, on which the source raises, is outside the model).
`metadata` and `admin_metadata` are the user/admin metadata mappings; the
source's `get_volume_metadata`/`get_admin_metadata` fold the alternative
row-list representations into exactly such a mapping, so the mapping itself
is taken as the representation. -/
structure Volume where
  id : String
  provider_location : Option JValue
  metadata : List (String × String)
  admin_metadata : List (String × String)

/-- A snapshot object, with the same conventions as `Volume`. -/
structure Snapshot where
  id : String
  provider_location : Option JValue
  metadata : List (String × String)

/-- Embedding of `get_volume_metadata(volume)`: the user metadata mapping (the source
dispatches on the runtime representation — typed object attribute vs
key/value rows — and both paths produce this mapping). -/
def get_volume_metadata (volume : Volume) : List (String × String) :=
  volume.metadata

/-- Embedding of `get_admin_metadata(volume)`: the admin metadata mapping (same
representation dispatch as `get_volume_metadata`). -/
def get_admin_metadata (volume : Volume) : List (String × String) :=
  volume.admin_metadata

/-- Embedding of `get_snapshot_metadata_value(snapshot)`: the snapshot metadata mapping. -/
def get_snapshot_metadata_value (snapshot : Snapshot) : List (String × String) :=
  snapshot.metadata

/-- Embedding of `get_lun_metadata(volume)`: decode `provider_location`; a dict is
returned directly, a legacy scalar is rebuilt into a mapping from the
admin/user metadata. -/
def get_lun_metadata (volume : Volume) : List (String × JValue) :=
  match volume.provider_location with
  | none => []
  | some (JValue.obj fields) => fields
  | some info =>
    let admin_metadata := get_admin_metadata volume
    let metadata := get_volume_metadata volume
    [("huawei_lun_id", JValue.str (six_text_type info)),
     ("huawei_lun_wwn", ((dictGet admin_metadata "huawei_lun_wwn").map
        JValue.str).getD JValue.null),
     ("huawei_sn", ((dictGet metadata "huawei_sn").map JValue.str).getD
        JValue.null),
     ("hypermetro", JValue.bool
        (((dictGet metadata "hypermetro_id").map (fun s => s != "")).getD
          false))]

/-- Embedding of `get_snapshot_metadata(snapshot)`: decode `provider_location`; a dict is
returned directly, a legacy scalar is rebuilt into a mapping from the
snapshot metadata. -/
def get_snapshot_metadata (snapshot : Snapshot) : List (String × JValue) :=
  match snapshot.provider_location with
  | none => []
  | some (JValue.obj fields) => fields
  | some info =>
    let metadata := get_snapshot_metadata_value snapshot
    [("huawei_snapshot_id", JValue.str (six_text_type info)),
     ("huawei_snapshot_wwn", ((dictGet metadata "huawei_snapshot_wwn").map
        JValue.str).getD JValue.null)]

/-! ## Client collaborator and the resolution fallback chains -/

/-- Version information returned by `client.get_array_info()`. -/
structure ArrayInfo where
  PRODUCTVERSION : String

/-- The array HTTP client collaborator, reduced to the lookups these
helpers perform.  Lookup results are dynamic values (`JValue.null` models a
`None` "not found" answer). -/
structure Client where
  get_lun_id_by_name : String → JValue
  get_snapshot_id_by_name : String → JValue
  get_host_id_by_name : String → JValue
  get_array_info : ArrayInfo

/-- Embedding of `get_volume_lun_id(client, volume)`: new-scheme name lookup, then
old-scheme name lookup, then the metadata record; the WWN always comes from
the metadata record. -/
def get_volume_lun_id (pyhash : String → Int) (client : Client)
    (volume : Volume) : JValue × JValue :=
  let metadata := get_lun_metadata volume
  let lun_id0 := client.get_lun_id_by_name (encode_name volume.id)
  let lun_id1 :=
    if jTruthy lun_id0 then lun_id0
    else client.get_lun_id_by_name (old_encode_name pyhash volume.id)
  let lun_id2 :=
    if jTruthy lun_id1 then lun_id1 else dictGetJ metadata "huawei_lun_id"
  (lun_id2, dictGetJ metadata "huawei_lun_wwn")

/-- Embedding of `get_snapshot_id(client, snapshot)`: the metadata record's id first,
then new-scheme name lookup, then old-scheme name lookup; the WWN always
comes from the metadata record. -/
def get_snapshot_id (pyhash : String → Int) (client : Client)
    (snapshot : Snapshot) : JValue × JValue :=
  let metadata := get_snapshot_metadata snapshot
  let snapshot_id0 := dictGetJ metadata "huawei_snapshot_id"
  let snapshot_id1 :=
    if jTruthy snapshot_id0 then snapshot_id0
    else client.get_snapshot_id_by_name (encode_name snapshot.id)
  let snapshot_id2 :=
    if jTruthy snapshot_id1 then snapshot_id1
    else client.get_snapshot_id_by_name (old_encode_name pyhash snapshot.id)
  (snapshot_id2, dictGetJ metadata "huawei_snapshot_wwn")

/-- Embedding of `get_host_id(client, host_name)`: look up the encoded host name; if the
encoding changed nothing, answer immediately, otherwise fall back to the old
host-name encoding when the first lookup found nothing. -/
def get_host_id (pyhash : String → Int) (client : Client)
    (host_name : String) : JValue :=
  let encoded_name := encode_host_name host_name
  let host_id := client.get_host_id_by_name encoded_name
  if encoded_name == host_name then host_id
  else if !(jTruthy host_id) then
    client.get_host_id_by_name (old_encode_host_name pyhash host_name)
  else host_id

/-- Embedding of `check_feature_available(feature_status, features)`: scan the requested
features, answering `true` at the first whose status is among
`AVAILABLE_FEATURE_STATUS`. -/
def check_feature_available (feature_status : List (String × Int)) :
    List String → Bool
  | [] => false
  | f :: rest =>
    if (dictGet feature_status f).any
        (fun v => AVAILABLE_FEATURE_STATUS.contains v) then true
    else check_feature_available feature_status rest

/-- Embedding of `is_support_clone_pair(client)`: `some true` when the product version is
at least the threshold; otherwise the function falls off its end, i.e.
returns Python `None`, modelled as `none`. -/
def is_support_clone_pair (client : Client) : Option Bool :=
  let array_info := client.get_array_info
  let version_info := array_info.PRODUCTVERSION
  if pyStrGe version_info SUPPORT_CLONE_PAIR_VERSION then some true
  else none

/-! ## The blocking poll helper `wait_for_condition`

The predicate `func` and wall-clock time are external effects: they are
modelled as an explicit trace, a list of `(now, step)` pairs giving the clock
reading and the predicate's behaviour at each scheduled invocation of the
looping call's `_inner`.  Exceptions are modelled by their message/cause
string; `interval` only spaces invocations in real time and has no effect on
the control flow modelled here.  The Python code truncates `time.time()`
with `int(...)`, so clock readings are integers already. -/

/-- Behaviour of one invocation of the polled predicate: it raises, or it
returns a value. -/
inductive PollStep where
  | raises (ex : String)
  | returns (v : JValue)
deriving Repr

/-- The driver exception raised by the poll helper. -/
inductive DriverError where
  | VolumeBackendAPIException (data : String)
deriving Repr, DecidableEq

/-- Outcome of one `_inner` invocation: stop successfully
(`LoopingCallDone`), propagate an error, or let the timer fire again. -/
inductive PollOutcome where
  | done
  | error (e : DriverError)
  | next
deriving Repr, DecidableEq

/-- The body (`_inner` in the source) of `wait_for_condition`: a raising predicate is wrapped
into `VolumeBackendAPIException` at once; a truthy result stops the loop; a
falsy result past the timeout raises the formatted timeout error; otherwise
the loop continues. -/
def inner_body (funcName : String) (start_time timeout : Int) (now : Int)
    (step : PollStep) : PollOutcome :=
  match step with
  | .raises ex => .error (.VolumeBackendAPIException ex)
  | .returns v =>
    if jTruthy v then .done
    else if now - start_time > timeout then
      .error (.VolumeBackendAPIException
        ("wait_for_condition: " ++ funcName ++ " timed out."))
    else .next

/-- Result of the whole `timer.start(interval=interval).wait()` call:
success, a propagated error, or `exhausted` when the supplied trace ends
while the loop would still be polling. -/
inductive PollResult where
  | success
  | failure (e : DriverError)
  | exhausted
deriving Repr, DecidableEq

/-- Embedding of `wait_for_condition(func, interval, timeout)` over an explicit trace of
predicate invocations: run `_inner` on each in turn until it stops the loop
or raises. -/
def wait_for_condition (funcName : String) (start_time timeout : Int) :
    List (Int × PollStep) → PollResult
  | [] => .exhausted
  | (now, step) :: rest =>
    match inner_body funcName start_time timeout now step with
    | .done => .success
    | .error e => .failure e
    | .next => wait_for_condition funcName start_time timeout rest

/-! ## Concrete fixtures used to instantiate the theorems -/

/-- A fixed stand-in for Python's seed-randomized string hash. -/
def pyhash0 : String → Int := fun _ => 0

/-- A volume with no stored provider location. -/
def volume0 : Volume :=
  { id := "abc-def", provider_location := none, metadata := [],
    admin_metadata := [] }

/-- A volume whose provider location decodes to a mapping that records the
array-side LUN id `"Y"`. -/
def volumeY : Volume :=
  { id := "ab-cd",
    provider_location := some (JValue.obj [("huawei_lun_id", JValue.str "Y")]),
    metadata := [], admin_metadata := [] }

/-- A volume with a legacy scalar provider location and a `hypermetro_id`
user-metadata entry whose value is the empty string. -/
def volHM : Volume :=
  { id := "v1-aa", provider_location := some (JValue.num 7),
    metadata := [("hypermetro_id", "")], admin_metadata := [] }

/-- A volume with a legacy scalar provider location and populated user and
admin metadata. -/
def volScalar : Volume :=
  { id := "v2-bb", provider_location := some (JValue.num 22),
    metadata := [("huawei_sn", "SN1"), ("hypermetro_id", "HM1")],
    admin_metadata := [("huawei_lun_wwn", "WWN1")] }

/-- A snapshot whose provider location holds a legacy scalar id. -/
def snap0 : Snapshot :=
  { id := "s1-ab", provider_location := some (JValue.num 5), metadata := [] }

/-- A snapshot with no stored provider location. -/
def snapEmpty : Snapshot :=
  { id := "s1-ab", provider_location := none, metadata := [] }

/-- A client stub that knows the volume `volume0` only under its old-scheme
name, as id `"X"`. -/
def clientOldX : Client :=
  { get_lun_id_by_name := fun n =>
      if n == old_encode_name pyhash0 "abc-def" then JValue.str "X"
      else JValue.null,
    get_snapshot_id_by_name := fun _ => JValue.null,
    get_host_id_by_name := fun _ => JValue.null,
    get_array_info := ⟨"V600R003C00"⟩ }

/-- A client stub that finds nothing under any name. -/
def clientNone : Client :=
  { get_lun_id_by_name := fun _ => JValue.null,
    get_snapshot_id_by_name := fun _ => JValue.null,
    get_host_id_by_name := fun _ => JValue.null,
    get_array_info := ⟨"V600R003C00"⟩ }

/-- A client stub that reports id `"N"` for every snapshot name. -/
def clientN : Client :=
  { get_lun_id_by_name := fun _ => JValue.null,
    get_snapshot_id_by_name := fun _ => JValue.str "N",
    get_host_id_by_name := fun _ => JValue.null,
    get_array_info := ⟨"V600R003C00"⟩ }

/-- A client stub that knows the host `"myhost"` as id `"H"`. -/
def clientHost : Client :=
  { get_lun_id_by_name := fun _ => JValue.null,
    get_snapshot_id_by_name := fun _ => JValue.null,
    get_host_id_by_name := fun n =>
      if n == "myhost" then JValue.str "H" else JValue.null,
    get_array_info := ⟨"V600R003C00"⟩ }

/-- A client whose array firmware is below the clone-pair threshold. -/
def clientLow : Client :=
  { get_lun_id_by_name := fun _ => JValue.null,
    get_snapshot_id_by_name := fun _ => JValue.null,
    get_host_id_by_name := fun _ => JValue.null,
    get_array_info := ⟨"V500R007C00"⟩ }

/-- A client whose array firmware is above the clone-pair threshold. -/
def clientHigh : Client :=
  { get_lun_id_by_name := fun _ => JValue.null,
    get_snapshot_id_by_name := fun _ => JValue.null,
    get_host_id_by_name := fun _ => JValue.null,
    get_array_info := ⟨"V600R005C00"⟩ }

/-! ## Helper lemmas -/

/-- String length is the length of the character list. -/
theorem str_length_data (s : String) : s.length = s.data.length := rfl

/-- Length of string concatenation. -/
theorem str_length_append (a b : String) :
    (a ++ b).length = a.length + b.length :=
  List.length_append a.data b.data

/-- Length of `strTake`. -/
theorem length_strTake (s : String) (n : Nat) :
    (strTake s n).length = min n s.length :=
  List.length_take n s.data

/-- A byte renders as two hex characters. -/
theorem length_byteHex (b : Nat) : (byteHex b).length = 2 := rfl

/-- Hex rendering doubles the byte count. -/
theorem length_flatMap_byteHex (l : List Nat) :
    (l.flatMap byteHex).length = 2 * l.length := by
  induction l with
  | nil => rfl
  | cons b t ih =>
    simp only [List.flatMap_cons, List.length_append, length_byteHex, ih,
      List.length_cons]
    omega

/-- The list `leBytes n x` has `n` bytes. -/
theorem length_leBytes (n x : Nat) : (leBytes n x).length = n := by
  simp [leBytes]

/-- An MD5 digest is 16 bytes. -/
theorem length_md5bytes (msg : List Nat) : (md5bytes msg).length = 16 := by
  simp [md5bytes, length_leBytes]

/-- An MD5 hexdigest is 32 characters, whatever the input. -/
theorem length_md5_hexdigest (s : String) : (md5_hexdigest s).length = 32 := by
  show ((md5bytes (strBytes s)).flatMap byteHex).length = 32
  rw [length_flatMap_byteHex, length_md5bytes]

/-- Unfolding of `encode_name` into prefix and sliced digest. -/
theorem encode_name_def (id : String) :
    encode_name id = (splitFirstDash id ++ "-") ++
      pySliceTo (md5_hexdigest id)
        ((MAX_NAME_LENGTH : Int) - (splitFirstDash id ++ "-").length) := rfl

/-- The prefix `first-segment ++ "-"` is never empty. -/
theorem pfx_length_pos (id : String) :
    0 < (splitFirstDash id ++ "-").length := by
  rw [str_length_append]
  have h1 : ("-" : String).length = 1 := rfl
  omega

/-- Truncated subtraction agrees with integer subtraction under `toNat`. -/
theorem int_toNat_sub_of_le (a b : Nat) (h : b ≤ a) :
    ((a:Int) - (b:Int)).toNat = a - b := by
  omega

/-- When the prefix fits in the bound, the Python slice of the digest is an
ordinary truncation. -/
theorem encode_name_of_pfx_le (id : String)
    (h : (splitFirstDash id ++ "-").length ≤ MAX_NAME_LENGTH) :
    encode_name id = (splitFirstDash id ++ "-") ++
      strTake (md5_hexdigest id)
        (MAX_NAME_LENGTH - (splitFirstDash id ++ "-").length) := by
  rw [encode_name_def]
  have hpos : (0:Int) ≤
      (MAX_NAME_LENGTH : Int) - (splitFirstDash id ++ "-").length := by
    omega
  simp only [pySliceTo, if_pos hpos]
  rw [int_toNat_sub_of_le MAX_NAME_LENGTH (splitFirstDash id ++ "-").length h]

/-- Within the bound, `encode_host_name` is the identity. -/
theorem encode_host_name_of_le (name : String)
    (h : name.length ≤ MAX_NAME_LENGTH) : encode_host_name name = name := by
  have hdec : decide (name.data.length > MAX_NAME_LENGTH) = false := by
    apply decide_eq_false
    rw [← str_length_data]
    omega
  simp only [encode_host_name, hdec, Bool.and_false]
  rfl

/-! ## Claim theorems -/

set_option maxRecDepth 100000 in
/-- C3 (counterexample): for the identifier of 31 `'a'`s — whose dash-free
first segment makes the prefix 32 characters long — `encode_name` produces a
63-character name, violating the claimed unconditional
`≤ MAX_NAME_LENGTH` bound. -/
theorem encode_name_length_cex :
    ¬ ((encode_name (String.mk (List.replicate 31 'a'))).length ≤
        MAX_NAME_LENGTH) := by
  decide

/-- C3 (amended): for every identifier whose prefix (first segment plus the
`'-'`) fits within `MAX_NAME_LENGTH`, the length of `encode_name id` is at
most `MAX_NAME_LENGTH`. -/
theorem encode_name_length_le (id : String)
    (h : (splitFirstDash id ++ "-").length ≤ MAX_NAME_LENGTH) :
    (encode_name id).length ≤ MAX_NAME_LENGTH := by
  rw [encode_name_of_pfx_le id h, str_length_append, length_strTake,
    length_md5_hexdigest]
  have hp := pfx_length_pos id
  have hmax : MAX_NAME_LENGTH = 31 := rfl
  omega

/-- C3 (witness): the amended bound at the identifier `"abc-def"`. -/
theorem encode_name_length_le_w :
    (splitFirstDash "abc-def" ++ "-").length ≤ MAX_NAME_LENGTH ∧
    (encode_name "abc-def").length ≤ MAX_NAME_LENGTH :=
  ⟨by decide, encode_name_length_le "abc-def" (by decide)⟩

/-- C4: when the prefix (first segment plus `'-'`) is shorter than
`MAX_NAME_LENGTH`, `encode_name id` is the prefix followed by a truncation
of the MD5 hexdigest of `id`, it starts with the prefix, its length is
exactly `MAX_NAME_LENGTH`, and the encoding is deterministic. -/
theorem encode_name_spec (id : String)
    (h : (splitFirstDash id ++ "-").length < MAX_NAME_LENGTH) :
    encode_name id = (splitFirstDash id ++ "-") ++
      strTake (md5_hexdigest id)
        (MAX_NAME_LENGTH - (splitFirstDash id ++ "-").length) ∧
    (∃ t, encode_name id = (splitFirstDash id ++ "-") ++ t) ∧
    (encode_name id).length = MAX_NAME_LENGTH ∧
    (∀ j, j = id → encode_name j = encode_name id) := by
  have he := encode_name_of_pfx_le id (Nat.le_of_lt h)
  refine ⟨he, ⟨_, he⟩, ?_, fun j hj => by rw [hj]⟩
  rw [he, str_length_append, length_strTake, length_md5_hexdigest]
  have hmax : MAX_NAME_LENGTH = 31 := rfl
  omega

/-- C4 (witness): the specification at the identifier `"abc-def"`. -/
theorem encode_name_spec_w :
    (splitFirstDash "abc-def" ++ "-").length < MAX_NAME_LENGTH ∧
    (encode_name "abc-def").length = MAX_NAME_LENGTH :=
  ⟨by decide, (encode_name_spec "abc-def" (by decide)).2.2.1⟩

/-- C5: `encode_host_name` is the identity on every input of length at most
`MAX_NAME_LENGTH` (the empty string included); on longer inputs it is the
MD5 hexdigest truncated to exactly `MAX_NAME_LENGTH` characters. -/
theorem encode_host_name_spec (name : String) :
    (name.length ≤ MAX_NAME_LENGTH → encode_host_name name = name) ∧
    (MAX_NAME_LENGTH < name.length →
      encode_host_name name = strTake (md5_hexdigest name) MAX_NAME_LENGTH ∧
      (encode_host_name name).length = MAX_NAME_LENGTH) := by
  constructor
  · exact encode_host_name_of_le name
  · intro h
    have hne : (name != "") = true := by
      simp only [bne_iff_ne, ne_eq]
      intro h0
      rw [h0] at h
      exact absurd h (by decide)
    have hdec : decide (name.data.length > MAX_NAME_LENGTH) = true := by
      apply decide_eq_true
      rw [← str_length_data]
      omega
    have he : encode_host_name name =
        strTake (md5_hexdigest name) MAX_NAME_LENGTH := by
      simp only [encode_host_name, hne, hdec, Bool.and_self]
      rfl
    refine ⟨he, ?_⟩
    rw [he, length_strTake, length_md5_hexdigest]
    have hmax : MAX_NAME_LENGTH = 31 := rfl
    omega

/-- C5 (witness): identity on the short name `"host1"` and on the empty
string; exact bound on a 40-character name. -/
theorem encode_host_name_spec_w :
    encode_host_name "host1" = "host1" ∧
    encode_host_name "" = "" ∧
    (encode_host_name (String.mk (List.replicate 40 'h'))).length =
      MAX_NAME_LENGTH :=
  ⟨(encode_host_name_spec "host1").1 (by decide),
   (encode_host_name_spec "").1 (by decide),
   ((encode_host_name_spec (String.mk (List.replicate 40 'h'))).2
     (by decide)).2⟩

/-- C1: `get_volume_lun_id` resolves the LUN id through the fallback chain
new-scheme name, then old-scheme name, then the metadata record's
`huawei_lun_id`; the WWN always comes from the metadata record's
`huawei_lun_wwn` and is never recomputed. -/
theorem get_volume_lun_id_spec (pyhash : String → Int) (client : Client)
    (volume : Volume) :
    (get_volume_lun_id pyhash client volume).2 =
      dictGetJ (get_lun_metadata volume) "huawei_lun_wwn" ∧
    (jTruthy (client.get_lun_id_by_name (encode_name volume.id)) = true →
      (get_volume_lun_id pyhash client volume).1 =
        client.get_lun_id_by_name (encode_name volume.id)) ∧
    (jTruthy (client.get_lun_id_by_name (encode_name volume.id)) = false →
      jTruthy (client.get_lun_id_by_name
        (old_encode_name pyhash volume.id)) = true →
      (get_volume_lun_id pyhash client volume).1 =
        client.get_lun_id_by_name (old_encode_name pyhash volume.id)) ∧
    (jTruthy (client.get_lun_id_by_name (encode_name volume.id)) = false →
      jTruthy (client.get_lun_id_by_name
        (old_encode_name pyhash volume.id)) = false →
      (get_volume_lun_id pyhash client volume).1 =
        dictGetJ (get_lun_metadata volume) "huawei_lun_id") := by
  refine ⟨rfl, ?_, ?_, ?_⟩
  · intro h1
    simp [get_volume_lun_id, h1]
  · intro h1 h2
    simp [get_volume_lun_id, h1, h2]
  · intro h1 h2
    simp [get_volume_lun_id, h1, h2]

set_option maxRecDepth 100000 in
/-- C1 (witness): a client that misses the new-scheme name of `volume0` but
knows its old-scheme name as `"X"` resolves to `"X"`; a client that misses
both names falls back to the metadata record's id `"Y"`. -/
theorem get_volume_lun_id_spec_w :
    jTruthy (clientOldX.get_lun_id_by_name (encode_name volume0.id)) = false ∧
    (get_volume_lun_id pyhash0 clientOldX volume0).1 = JValue.str "X" ∧
    (get_volume_lun_id pyhash0 clientNone volumeY).1 = JValue.str "Y" := by
  have h1 : jTruthy (clientOldX.get_lun_id_by_name
      (encode_name volume0.id)) = false := by decide
  have h2 : jTruthy (clientOldX.get_lun_id_by_name
      (old_encode_name pyhash0 volume0.id)) = true := rfl
  refine ⟨h1, ?_, ?_⟩
  · exact ((get_volume_lun_id_spec pyhash0 clientOldX volume0).2.2.1
      h1 h2).trans rfl
  · exact ((get_volume_lun_id_spec pyhash0 clientNone volumeY).2.2.2
      rfl rfl).trans rfl

/-- C2 (counterexample): a snapshot whose metadata records id `"5"` resolves
to `"5"` even though the client reports `"N"` for its new-scheme name — the
metadata record is consulted first, not as a last resort as for volumes. -/
theorem get_snapshot_id_cex :
    (get_snapshot_id pyhash0 clientN snap0).1 = JValue.str "5" ∧
    clientN.get_snapshot_id_by_name (encode_name snap0.id) = JValue.str "N" ∧
    JValue.str "5" ≠ JValue.str "N" := by
  refine ⟨rfl, rfl, ?_⟩
  intro h
  injection h with h'
  exact absurd h' (by decide)

/-- C2 (amended): `get_snapshot_id` reads the metadata record's
`huawei_snapshot_id` first; only when it is absent or falsy does it look up
the new-scheme encoded name, and then the old-scheme encoded name; the WWN
always comes from the metadata record. -/
theorem get_snapshot_id_chain (pyhash : String → Int) (client : Client)
    (snapshot : Snapshot) :
    (get_snapshot_id pyhash client snapshot).2 =
      dictGetJ (get_snapshot_metadata snapshot) "huawei_snapshot_wwn" ∧
    (jTruthy (dictGetJ (get_snapshot_metadata snapshot)
        "huawei_snapshot_id") = true →
      (get_snapshot_id pyhash client snapshot).1 =
        dictGetJ (get_snapshot_metadata snapshot) "huawei_snapshot_id") ∧
    (jTruthy (dictGetJ (get_snapshot_metadata snapshot)
        "huawei_snapshot_id") = false →
      jTruthy (client.get_snapshot_id_by_name
        (encode_name snapshot.id)) = true →
      (get_snapshot_id pyhash client snapshot).1 =
        client.get_snapshot_id_by_name (encode_name snapshot.id)) ∧
    (jTruthy (dictGetJ (get_snapshot_metadata snapshot)
        "huawei_snapshot_id") = false →
      jTruthy (client.get_snapshot_id_by_name
        (encode_name snapshot.id)) = false →
      (get_snapshot_id pyhash client snapshot).1 =
        client.get_snapshot_id_by_name
          (old_encode_name pyhash snapshot.id)) := by
  refine ⟨rfl, ?_, ?_, ?_⟩
  · intro h1
    simp [get_snapshot_id, h1]
  · intro h1 h2
    simp [get_snapshot_id, h1, h2]
  · intro h1 h2
    simp [get_snapshot_id, h1, h2]

/-- C2 (witness): with an empty metadata record, a client that knows the
snapshot's new-scheme name as `"N"` resolves to `"N"`. -/
theorem get_snapshot_id_chain_w :
    (get_snapshot_id pyhash0 clientN snapEmpty).1 = JValue.str "N" :=
  ((get_snapshot_id_chain pyhash0 clientN snapEmpty).2.2.1 rfl rfl).trans rfl

/-- C6: when `encode_host_name` leaves the host name unchanged (in
particular whenever the name is within the length bound), `get_host_id`
answers with the client's lookup of that name and never tries the
old-encoding fallback; only for a re-encoded name whose first lookup found
nothing is `old_encode_host_name` consulted. -/
theorem get_host_id_spec (pyhash : String → Int) (client : Client)
    (host_name : String) :
    (encode_host_name host_name = host_name →
      get_host_id pyhash client host_name =
        client.get_host_id_by_name host_name) ∧
    (host_name.length ≤ MAX_NAME_LENGTH →
      get_host_id pyhash client host_name =
        client.get_host_id_by_name host_name) ∧
    (encode_host_name host_name ≠ host_name →
      jTruthy (client.get_host_id_by_name
        (encode_host_name host_name)) = false →
      get_host_id pyhash client host_name =
        client.get_host_id_by_name
          (old_encode_host_name pyhash host_name)) ∧
    (encode_host_name host_name ≠ host_name →
      jTruthy (client.get_host_id_by_name
        (encode_host_name host_name)) = true →
      get_host_id pyhash client host_name =
        client.get_host_id_by_name (encode_host_name host_name)) := by
  have hshort : encode_host_name host_name = host_name →
      get_host_id pyhash client host_name =
        client.get_host_id_by_name host_name := by
    intro h
    simp [get_host_id, h]
  refine ⟨hshort, fun hle => hshort (encode_host_name_of_le host_name hle),
    ?_, ?_⟩
  · intro h hf
    have hne : (encode_host_name host_name == host_name) = false := by
      simp [h]
    simp [get_host_id, hne, hf]
  · intro h ht
    have hne : (encode_host_name host_name == host_name) = false := by
      simp [h]
    simp [get_host_id, hne, ht]

/-- C6 (witness): the host name `"myhost"` is within the bound, so the
lookup result for it is returned directly. -/
theorem get_host_id_spec_w :
    encode_host_name "myhost" = "myhost" ∧
    get_host_id pyhash0 clientHost "myhost" = JValue.str "H" := by
  have h : encode_host_name "myhost" = "myhost" := by decide
  exact ⟨h, ((get_host_id_spec pyhash0 clientHost "myhost").1 h).trans rfl⟩

/-- C7: `check_feature_available` answers `true` exactly when some requested
feature's status is a member of `AVAILABLE_FEATURE_STATUS`; on an empty
feature list it answers `false`. -/
theorem check_feature_available_spec (feature_status : List (String × Int))
    (features : List String) :
    (check_feature_available feature_status features = true ↔
      ∃ f ∈ features, ∃ v, dictGet feature_status f = some v ∧
        v ∈ AVAILABLE_FEATURE_STATUS) ∧
    check_feature_available feature_status [] = false := by
  refine ⟨?_, rfl⟩
  induction features with
  | nil => simp [check_feature_available]
  | cons f rest ih =>
    simp only [check_feature_available]
    cases hc : (dictGet feature_status f).any
        (fun v => AVAILABLE_FEATURE_STATUS.contains v) with
    | true =>
      simp only [hc, if_true, true_iff]
      obtain ⟨v, hv, hmem⟩ : ∃ v, dictGet feature_status f = some v ∧
          AVAILABLE_FEATURE_STATUS.contains v = true := by
        cases ho : dictGet feature_status f with
        | none => rw [ho] at hc; exact Bool.noConfusion hc
        | some v =>
          rw [ho] at hc
          exact ⟨v, rfl, hc⟩
      exact ⟨f, List.mem_cons_self f rest, v, hv, List.elem_iff.mp hmem⟩
    | false =>
      rw [if_neg (by simp)]
      rw [ih]
      constructor
      · rintro ⟨g, hg, v, hv, hmem⟩
        exact ⟨g, List.mem_cons_of_mem f hg, v, hv, hmem⟩
      · rintro ⟨g, hg, v, hv, hmem⟩
        rcases List.mem_cons.mp hg with hgf | hgr
        · subst hgf
          have hcontra : (dictGet feature_status g).any
              (fun v => AVAILABLE_FEATURE_STATUS.contains v) = true := by
            rw [hv]
            exact List.elem_iff.mpr hmem
          rw [hcontra] at hc
          cases hc
        · exact ⟨g, hgr, v, hv, hmem⟩

/-- C7 (witness): the characterization instantiated: a matching feature
status yields `true`, the empty list yields `false`, and a non-matching
status yields `false`. -/
theorem check_feature_available_spec_w :
    check_feature_available [("HyperCopy", (1 : Int))] ["HyperCopy"] = true ∧
    check_feature_available [("HyperCopy", (1 : Int))] [] = false ∧
    check_feature_available [("HyperCopy", (5 : Int))] ["HyperCopy"] = false := by
  refine ⟨?_, (check_feature_available_spec [("HyperCopy", 1)] ["HyperCopy"]).2,
    ?_⟩
  · exact (check_feature_available_spec [("HyperCopy", 1)] ["HyperCopy"]).1.mpr
      ⟨"HyperCopy", by decide, 1, rfl, by decide⟩
  · have hiff :=
      (check_feature_available_spec [("HyperCopy", 5)] ["HyperCopy"]).1
    cases hres : check_feature_available [("HyperCopy", (5 : Int))]
        ["HyperCopy"] with
    | false => rfl
    | true =>
      obtain ⟨g, hg, v, hv, hmem⟩ := hiff.mp hres
      rcases List.mem_cons.mp hg with hgf | hgr
      · subst hgf
        rw [show dictGet [("HyperCopy", (5 : Int))] "HyperCopy" = some 5 from rfl] at hv
        injection hv with hv5
        rw [← hv5] at hmem
        exact absurd hmem (by decide)
      · cases hgr

/-- C8: the poll helper turns a predicate-raised exception into a
`VolumeBackendAPIException` carrying the original cause, immediately and
with no retry, whatever the rest of the trace holds; and a falsy result
observed after the timeout has elapsed produces the same kind of error with
the formatted message naming the timed-out function. -/
theorem wait_for_condition_spec (funcName : String)
    (start_time timeout now : Int) (ex : String) (v : JValue)
    (rest rest' : List (Int × PollStep)) :
    wait_for_condition funcName start_time timeout
        ((now, PollStep.raises ex) :: rest) =
      PollResult.failure (DriverError.VolumeBackendAPIException ex) ∧
    (jTruthy v = false → now - start_time > timeout →
      wait_for_condition funcName start_time timeout
          ((now, PollStep.returns v) :: rest') =
        PollResult.failure (DriverError.VolumeBackendAPIException
          ("wait_for_condition: " ++ funcName ++ " timed out."))) := by
  constructor
  · rfl
  · intro h1 h2
    simp [wait_for_condition, inner_body, h1, h2]

/-- C8 (witness): a raising predicate fails at once with the wrapped cause;
a falsy result past the timeout fails with the formatted message. -/
theorem wait_for_condition_spec_w :
    wait_for_condition "f" 0 3 [((10 : Int), PollStep.raises "boom")] =
      PollResult.failure (DriverError.VolumeBackendAPIException "boom") ∧
    wait_for_condition "f" 0 3 [((10 : Int), PollStep.returns JValue.null)] =
      PollResult.failure (DriverError.VolumeBackendAPIException
        "wait_for_condition: f timed out.") :=
  ⟨(wait_for_condition_spec "f" 0 3 10 "boom" JValue.null [] []).1,
   (wait_for_condition_spec "f" 0 3 10 "boom" JValue.null [] []).2 rfl
     (by decide)⟩

/-- C9 (counterexample): for a volume with a legacy scalar provider location
whose user metadata holds a `hypermetro_id` entry with the (falsy) empty
string as value, the reconstructed mapping's `hypermetro` flag is `false`
even though the entry is present. -/
theorem get_lun_metadata_hypermetro_cex :
    dictGet volHM.metadata "hypermetro_id" = some "" ∧
    dictGetJ (get_lun_metadata volHM) "hypermetro" = JValue.bool false :=
  ⟨rfl, rfl⟩

/-- C9 (amended): `get_lun_metadata` returns the empty mapping for an empty
provider location, the decoded mapping itself when the location decodes to a
dict, and otherwise the reconstructed legacy mapping — whose `hypermetro`
flag is true exactly when the user metadata holds a `hypermetro_id` entry
with a truthy (non-empty) value. -/
theorem get_lun_metadata_spec (volume : Volume) :
    (volume.provider_location = none → get_lun_metadata volume = []) ∧
    (∀ fields, volume.provider_location = some (JValue.obj fields) →
      get_lun_metadata volume = fields) ∧
    (∀ info, volume.provider_location = some info →
      (∀ fields, info ≠ JValue.obj fields) →
      get_lun_metadata volume =
        [("huawei_lun_id", JValue.str (six_text_type info)),
         ("huawei_lun_wwn",
           ((dictGet volume.admin_metadata "huawei_lun_wwn").map
             JValue.str).getD JValue.null),
         ("huawei_sn",
           ((dictGet volume.metadata "huawei_sn").map JValue.str).getD
             JValue.null),
         ("hypermetro", JValue.bool
           (((dictGet volume.metadata "hypermetro_id").map
             (fun s => s != "")).getD false))]) := by
  refine ⟨?_, ?_, ?_⟩
  · intro h
    simp [get_lun_metadata, h]
  · intro fields h
    simp [get_lun_metadata, h]
  · intro info h hne
    cases info with
    | obj fields => exact absurd rfl (hne fields)
    | null =>
      simp [get_lun_metadata, h, get_admin_metadata, get_volume_metadata]
    | bool b =>
      simp [get_lun_metadata, h, get_admin_metadata, get_volume_metadata]
    | num n =>
      simp [get_lun_metadata, h, get_admin_metadata, get_volume_metadata]
    | str s =>
      simp [get_lun_metadata, h, get_admin_metadata, get_volume_metadata]

/-- C9 (witness): the three paths at concrete volumes — empty location,
dict-shaped location, and legacy scalar location with populated metadata. -/
theorem get_lun_metadata_spec_w :
    get_lun_metadata volume0 = [] ∧
    get_lun_metadata volumeY = [("huawei_lun_id", JValue.str "Y")] ∧
    get_lun_metadata volScalar =
      [("huawei_lun_id", JValue.str "22"),
       ("huawei_lun_wwn", JValue.str "WWN1"),
       ("huawei_sn", JValue.str "SN1"),
       ("hypermetro", JValue.bool true)] :=
  ⟨(get_lun_metadata_spec volume0).1 rfl,
   (get_lun_metadata_spec volumeY).2.1 [("huawei_lun_id", JValue.str "Y")] rfl,
   ((get_lun_metadata_spec volScalar).2.2 (JValue.num 22) rfl
     (fun _ h => nomatch h)).trans rfl⟩

/-- C10: `is_support_clone_pair` yields `none` (Python `None`, by falling
off the end of the function) when the reported product version is
lexicographically below `SUPPORT_CLONE_PAIR_VERSION`, and yields the boolean
`true` exactly when the version is at least the threshold; it never yields
the boolean `false`. -/
theorem is_support_clone_pair_spec (client : Client) :
    (pyStrLt client.get_array_info.PRODUCTVERSION
        SUPPORT_CLONE_PAIR_VERSION = true →
      is_support_clone_pair client = none) ∧
    (pyStrGe client.get_array_info.PRODUCTVERSION
        SUPPORT_CLONE_PAIR_VERSION = true →
      is_support_clone_pair client = some true) ∧
    (is_support_clone_pair client = some true →
      pyStrGe client.get_array_info.PRODUCTVERSION
        SUPPORT_CLONE_PAIR_VERSION = true) ∧
    is_support_clone_pair client ≠ some false := by
  refine ⟨?_, ?_, ?_, ?_⟩
  · intro h
    simp [is_support_clone_pair, pyStrGe, h]
  · intro h
    simp [is_support_clone_pair, h]
  · intro h
    cases hge : pyStrGe client.get_array_info.PRODUCTVERSION
        SUPPORT_CLONE_PAIR_VERSION with
    | true => rfl
    | false => simp [is_support_clone_pair, hge] at h
  · cases hge : pyStrGe client.get_array_info.PRODUCTVERSION
        SUPPORT_CLONE_PAIR_VERSION with
    | true => simp [is_support_clone_pair, hge]
    | false => simp [is_support_clone_pair, hge]

/-- C10 (witness): a firmware below the threshold yields `none`; one above
yields `some true`. -/
theorem is_support_clone_pair_spec_w :
    is_support_clone_pair clientLow = none ∧
    is_support_clone_pair clientHigh = some true :=
  ⟨(is_support_clone_pair_spec clientLow).1 (by decide),
   (is_support_clone_pair_spec clientHigh).2.1 (by decide)⟩
